import Mathlib

/-!
Verification development for the classical-vision casting pipeline in cv.py.

The pipeline's OpenCV calls (HoughLinesP, cornerHarris, findContours,
SimpleBlobDetector, Canny, morphology) are external collaborators: we model
their outputs as abstract input data (line segments, contours, corner
response points, blob keypoints) and embed, faithfully to the source, all
the repository code that consumes those outputs: the five detectors'
filtering/capping/box-construction logic, the measurement analyzers, the
compliance evaluator, and the document aggregation with its error
propagation.  Python floats are idealized as real numbers; pixel
coordinates are integers.
-/

namespace CastingCV

/-- A line segment (x1, y1, x2, y2) as returned by the probabilistic Hough
transform, in pixel coordinates. -/
structure Line where
  x1 : Int
  y1 : Int
  x2 : Int
  y2 : Int
deriving DecidableEq

/-- Abstraction of an OpenCV contour as consumed by cv.py: its point count
(len(contour)), its bounding rectangle (cv2.boundingRect) and its area
(cv2.contourArea). -/
structure Contour where
  npts : Nat
  x : Int
  y : Int
  w : Int
  h : Int
  area : Rat

/-- A Harris corner response location (row y, column x) with its response
strength corners[y, x]. -/
structure CornerPt where
  y : Int
  x : Int
  strength : Rat

/-- A blob-detector keypoint: center kp.pt, characteristic size kp.size and
response kp.response. -/
structure KeyPoint where
  px : Rat
  py : Rat
  size : Rat
  response : Rat

/-- The BoundingBox dataclass of cv.py: pixel box, feature type tag,
confidence, and the free-form numeric properties dictionary (modelled as an
association list). -/
structure BoundingBox where
  x : Int
  y : Int
  width : Int
  height : Int
  feature_type : String
  confidence : Rat
  properties : List (String × Real)

/-- The FeatureAnalysis dataclass of cv.py. -/
structure FeatureAnalysis where
  bbox : BoundingBox
  rule_compliance : List (String × String)
  measurements : List (String × Real)
  notes : List String

/-- numpy arctan2 over the reals: angle of the vector (x, y), in radians,
with values in (-pi, pi]. -/
noncomputable def atan2 (y x : Real) : Real :=
  if 0 < x then Real.arctan (y / x)
  else if x < 0 then
    (if 0 ≤ y then Real.arctan (y / x) + Real.pi else Real.arctan (y / x) - Real.pi)
  else
    (if 0 < y then Real.pi / 2 else if y < 0 then -(Real.pi / 2) else 0)

/-- Segment length np.sqrt((x2-x1)**2 + (y2-y1)**2) (cv.py lines 98, 122). -/
noncomputable def segLength (l : Line) : Real :=
  Real.sqrt (((l.x2 - l.x1 : Int) : Real) ^ 2 + ((l.y2 - l.y1 : Int) : Real) ^ 2)

/-- Segment orientation np.arctan2(y2-y1, x2-x1), in radians (cv.py lines
216, 223, 320, 324; also the first factor of line 123). -/
noncomputable def lineAngleRad (l : Line) : Real :=
  atan2 ((l.y2 - l.y1 : Int) : Real) ((l.x2 - l.x1 : Int) : Real)

/-- Wall angle property: np.arctan2(y2-y1, x2-x1) * 180 / np.pi, in degrees
(cv.py line 123). -/
noncomputable def wallAngleDeg (l : Line) : Real :=
  lineAngleRad l * 180 / Real.pi

/-- Border margin of the wall detector (cv.py line 103). -/
def wallMargin : Int := 50

/-- Keep-condition of the wall detector's filtering loop (cv.py lines
96-109): the segment is long enough and no endpoint lies within the border
margin. -/
noncomputable def wallKeep (imgH imgW min_length : Int) (l : Line) : Prop :=
  ¬ (segLength l < (min_length : Real)) ∧
  ¬ (l.x1 < wallMargin ∨ l.x2 < wallMargin ∨ l.y1 < wallMargin ∨ l.y2 < wallMargin ∨
     l.x1 > imgW - wallMargin ∨ l.x2 > imgW - wallMargin ∨
     l.y1 > imgH - wallMargin ∨ l.y2 > imgH - wallMargin)

open Classical in
/-- The filtered_lines list of cv.py lines 93-109. -/
noncomputable def wallSurvivors (imgH imgW min_length : Int) (lines : List Line) : List Line :=
  lines.filter (fun l => decide (wallKeep imgH imgW min_length l))

/-- Wall bounding box construction (cv.py lines 113-131): padding 30,
clamped at zero on the low side only. -/
noncomputable def mkWallBox (l : Line) : BoundingBox :=
  { x := max 0 (min l.x1 l.x2 - 30)
  , y := max 0 (min l.y1 l.y2 - 30)
  , width := |l.x2 - l.x1| + 2 * 30
  , height := |l.y2 - l.y1| + 2 * 30
  , feature_type := "wall"
  , confidence := 0.8
  , properties := [("length", segLength l), ("angle", wallAngleDeg l)] }

/-- detect_walls (cv.py lines 85-134): filter by length and border margin,
truncate to the first 15 survivors, build padded boxes. -/
noncomputable def detect_walls (imgH imgW : Int) (lines : List Line) (min_length : Int) :
    List BoundingBox :=
  ((wallSurvivors imgH imgW min_length lines).take 15).map mkWallBox

/-- Border margin of the corner detector (cv.py line 146). -/
def cornerMargin : Int := 80

/-- Keep-condition of the corner detector's margin filter (cv.py lines
149-153). -/
def cornerKeep (imgH imgW : Int) (c : CornerPt) : Bool :=
  decide (¬ (c.x < cornerMargin ∨ c.y < cornerMargin ∨
             c.x > imgW - cornerMargin ∨ c.y > imgH - cornerMargin))

/-- Stable insertion into a list sorted ascending by a rational key. -/
def insertAscBy {α : Type} (key : α → Rat) (a : α) : List α → List α
  | [] => [a]
  | b :: l => if key a ≤ key b then a :: b :: l else b :: insertAscBy key a l

/-- Stable insertion sort, ascending by a rational key (model of the
ascending order produced by np.argsort in cv.py line 157). -/
def sortAscBy {α : Type} (key : α → Rat) : List α → List α
  | [] => []
  | a :: l => insertAscBy key a (sortAscBy key l)

/-- Stable insertion into a list sorted descending by a rational key. -/
def insertDescBy {α : Type} (key : α → Rat) (a : α) : List α → List α
  | [] => [a]
  | b :: l => if key b ≤ key a then a :: b :: l else b :: insertDescBy key a l

/-- Stable insertion sort, descending by a rational key (model of Python's
stable sorted(..., reverse=True) in cv.py lines 182, 265). -/
def sortDescBy {α : Type} (key : α → Rat) : List α → List α
  | [] => []
  | a :: l => insertDescBy key a (sortDescBy key l)

/-- Corner bounding box construction (cv.py lines 160-169): fixed 50 px
square centered on the response point, clamped at zero. -/
def mkCornerBox (c : CornerPt) : BoundingBox :=
  { x := max 0 (c.x - 25)
  , y := max 0 (c.y - 25)
  , width := 50
  , height := 50
  , feature_type := "corner"
  , confidence := 0.7
  , properties := [("corner_response", (c.strength : Real))] }

/-- detect_corners (cv.py lines 136-171): margin filter, then if more than
10 remain keep the 10 strongest (in ascending response order, as produced
by argsort), then build fixed-size boxes. -/
def detect_corners (imgH imgW : Int) (pts : List CornerPt) : List BoundingBox :=
  let filtered := pts.filter (cornerKeep imgH imgW)
  let capped :=
    if 10 < filtered.length then
      (sortAscBy (fun c => c.strength) filtered).drop (filtered.length - 10)
    else filtered
  capped.map mkCornerBox

/-- Junction bounding box construction (cv.py lines 186-196): contour
bounding rectangle expanded by padding 30, clamped at zero on the low side
only. -/
def mkJunctionBox (c : Contour) : BoundingBox :=
  { x := max 0 (c.x - 30)
  , y := max 0 (c.y - 30)
  , width := c.w + 2 * 30
  , height := c.h + 2 * 30
  , feature_type := "junction"
  , confidence := 0.6
  , properties := [("area", (c.area : Real))] }

/-- detect_junctions (cv.py lines 173-198): sort contours by area
descending, keep the 10 largest, keep those above area 200, build padded
boxes. -/
def detect_junctions (contours : List Contour) : List BoundingBox :=
  let top := (sortDescBy (fun c => c.area) contours).take 10
  (top.filter (fun c => decide (c.area > 200))).map mkJunctionBox

/-- Perpendicular distance from line2's first endpoint to line1 (cv.py line
226). -/
noncomputable def ribDist (l1 l2 : Line) : Real :=
  ((|(l1.y2 - l1.y1) * l2.x1 - (l1.x2 - l1.x1) * l2.y1 + l1.x2 * l1.y1 - l1.y2 * l1.x1| : Int) : Real) /
    Real.sqrt (((l1.y2 - l1.y1 : Int) : Real) ^ 2 + ((l1.x2 - l1.x1 : Int) : Real) ^ 2)

/-- Rib bounding box construction (cv.py lines 229-241): box of all four
endpoints plus padding 15, clamped at zero on the low side only; the angle
property is angle1 of the FIRST segment, in radians (no degree
conversion). -/
noncomputable def mkRibBox (l1 l2 : Line) : BoundingBox :=
  let minX := min (min l1.x1 l1.x2) (min l2.x1 l2.x2)
  let maxX := max (max l1.x1 l1.x2) (max l2.x1 l2.x2)
  let minY := min (min l1.y1 l1.y2) (min l2.y1 l2.y2)
  let maxY := max (max l1.y1 l1.y2) (max l2.y1 l2.y2)
  { x := max 0 (minX - 15)
  , y := max 0 (minY - 15)
  , width := maxX - minX + 2 * 15
  , height := maxY - minY + 2 * 15
  , feature_type := "rib"
  , confidence := 0.7
  , properties := [("spacing", ribDist l1 l2), ("angle", lineAngleRad l1)] }

open Classical in
/-- Inner loop of detect_ribs (cv.py lines 218-245): scan the later indexed
lines for the first unconsumed partner with close angle and plausible
spacing. -/
noncomputable def findRibPartner (l1 : Line) :
    List (Nat × Line) → List Nat → Option (Nat × Line)
  | [], _ => none
  | (j, l2) :: rest, processed =>
    if j ∈ processed then findRibPartner l1 rest processed
    else if |lineAngleRad l1 - lineAngleRad l2| < 0.2 then
      (if 10 < ribDist l1 l2 ∧ ribDist l1 l2 < 100 then some (j, l2)
       else findRibPartner l1 rest processed)
    else findRibPartner l1 rest processed

open Classical in
/-- Outer loop of detect_ribs (cv.py lines 210-245): greedy pairing with a
consumed-index set. -/
noncomputable def ribLoop : List (Nat × Line) → List Nat → List BoundingBox
  | [], _ => []
  | (i, l1) :: rest, processed =>
    if i ∈ processed then ribLoop rest processed
    else
      match findRibPartner l1 rest processed with
      | some jl => mkRibBox l1 jl.2 :: ribLoop rest (i :: jl.1 :: processed)
      | none => ribLoop rest processed

/-- detect_ribs (cv.py lines 200-247): keep the first 30 raw segments,
pair greedily, cap the output at 5. -/
noncomputable def detect_ribs (lines : List Line) : List BoundingBox :=
  (ribLoop (lines.take 30).enum []).take 5

/-- Python's int() conversion: truncation toward zero. -/
def pyInt (q : Rat) : Int := if q < 0 then -(Int.floor (-q)) else Int.floor q

/-- Boss bounding box construction (cv.py lines 267-278): square of side
twice the keypoint size, centered on the keypoint, clamped at zero on the
low side only. -/
def mkBossBox (kp : KeyPoint) : BoundingBox :=
  let x := pyInt kp.px
  let y := pyInt kp.py
  let size := pyInt kp.size
  { x := max 0 (x - size)
  , y := max 0 (y - size)
  , width := 2 * size
  , height := 2 * size
  , feature_type := "boss"
  , confidence := 0.6
  , properties := [("size", (kp.size : Real)), ("response", (kp.response : Real))] }

/-- detect_bosses (cv.py lines 249-280): keep the 5 largest keypoints by
size, build boxes. -/
def detect_bosses (kps : List KeyPoint) : List BoundingBox :=
  ((sortDescBy (fun kp => kp.size) kps).take 5).map mkBossBox

/-- Arithmetic mean of a list of reals (np.mean). -/
noncomputable def listMean (xs : List Real) : Real := xs.sum / xs.length

/-- Minimum of a nonempty list of reals (np.min); 0 on the empty list, on
which the source never calls it. -/
noncomputable def listMinV : List Real → Real
  | [] => 0
  | a :: l => l.foldl min a

/-- Maximum of a nonempty list of reals (np.max); 0 on the empty list, on
which the source never calls it. -/
noncomputable def listMaxV : List Real → Real
  | [] => 0
  | a :: l => l.foldl max a

/-- Population standard deviation (np.std, ddof = 0). -/
noncomputable def listStd (xs : List Real) : Real :=
  Real.sqrt (listMean (xs.map (fun x => (x - listMean xs) ^ 2)))

/-- Local thickness sample of one contour: the shorter side of its
bounding rectangle (cv.py line 296). -/
def thicknessOf (c : Contour) : Int := min c.w c.h

/-- The thickness sample list of analyze_wall_thickness (cv.py lines
292-297): one sample per contour with more than 10 points. -/
noncomputable def thicknessSamples (contours : List Contour) : List Real :=
  (contours.filter (fun c => decide (10 < c.npts))).map
    (fun c => ((thicknessOf c : Int) : Real))

/-- analyze_wall_thickness (cv.py lines 284-307).  The Canny/findContours
calls on the region of interest are external; their resulting contour list
is the input.  With no samples, all four metrics are zero. -/
noncomputable def analyze_wall_thickness (bbox : BoundingBox) (contours : List Contour) :
    List (String × Real) :=
  let thicknesses := thicknessSamples contours
  if thicknesses = [] then
    [("avg_thickness", 0), ("min_thickness", 0),
     ("max_thickness", 0), ("thickness_variation", 0)]
  else
    [("avg_thickness", listMean thicknesses), ("min_thickness", listMinV thicknesses),
     ("max_thickness", listMaxV thicknesses), ("thickness_variation", listStd thicknesses)]

/-- The per-pair angle difference appended by analyze_corner_angles (cv.py
lines 326-330): absolute orientation difference in degrees, reflected once
when above 90. -/
noncomputable def angleDiffDeg (l1 l2 : Line) : Real :=
  let d := |lineAngleRad l1 - lineAngleRad l2| * 180 / Real.pi
  if d > 90 then 180 - d else d

/-- All ordered-pair angle differences of the double loop in cv.py lines
318-330. -/
noncomputable def pairDiffs : List Line → List Real
  | [] => []
  | l :: rest => rest.map (angleDiffDeg l) ++ pairDiffs rest

/-- The angles list of analyze_corner_angles (cv.py lines 316-330): filled
only when at least two lines were detected. -/
noncomputable def cornerAngles (lines : List Line) : List Real :=
  if 2 ≤ lines.length then pairDiffs lines else []

/-- analyze_corner_angles (cv.py lines 309-339).  The Hough call on the
region of interest is external; its resulting line list is the input.  With
no angle pairs, neutral defaults are returned. -/
noncomputable def analyze_corner_angles (lines : List Line) : List (String × Real) :=
  let angles := cornerAngles lines
  if angles = [] then
    [("min_angle", 90), ("avg_angle", 90), ("acute_angles", 0)]
  else
    [("min_angle", listMinV angles), ("avg_angle", listMean angles),
     ("acute_angles", (((angles.filter (fun a => decide (a < 90))).length : Nat) : Real))]

/-- Line orientation in degrees folded into [0, 180) (cv.py lines
351-355). -/
noncomputable def junctionLineAngle (l : Line) : Real :=
  let a := lineAngleRad l * 180 / Real.pi
  if a < 0 then a + 180 else a

open Classical in
/-- The greedy angle clustering of cv.py lines 357-367: each unprocessed
angle opens a cluster and consumes all later angles within 15 degrees of
the representative. -/
noncomputable def clusterCount : List Real → Nat
  | [] => 0
  | a :: rest => 1 + clusterCount (rest.filter (fun b => decide (¬ (|a - b| < 15))))
termination_by l => l.length
decreasing_by
  simp only [List.length_cons]
  exact Nat.lt_succ_of_le (List.length_filter_le _ _)

/-- analyze_junction_complexity (cv.py lines 341-375).  The Hough call on
the region of interest is external; its resulting line list is the input
(None modelled as the empty list). -/
noncomputable def analyze_junction_complexity (lines : List Line) : List (String × Real) :=
  if lines = [] then
    [("total_lines", 0), ("unique_sections", 0), ("complexity_score", 0)]
  else
    let u := clusterCount (lines.map junctionLineAngle)
    [("total_lines", ((lines.length : Nat) : Real)),
     ("unique_sections", ((u : Nat) : Real)),
     ("complexity_score", ((u : Nat) : Real))]

/-- The divisor of the R8 transition-ratio computation: max(min_thickness,
1) (cv.py line 395). -/
noncomputable def r8_divisor (min_thickness : Real) : Real := max min_thickness 1

open Classical in
/-- check_rule_compliance (cv.py lines 378-448): deterministic threshold
evaluation per feature type; the dict is modelled as an association list in
insertion order. -/
noncomputable def check_rule_compliance (analysis : FeatureAnalysis) :
    List (String × String) :=
  let bbox := analysis.bbox
  let measurements := analysis.measurements
  if bbox.feature_type = "wall" then
    (match measurements.lookup "thickness_variation" with
      | some variation =>
        [("R5", if variation < 2 then "Yes"
                else if variation > 5 then "No" else "Needs Review")]
      | none => []) ++
    (match measurements.lookup "max_thickness", measurements.lookup "min_thickness" with
      | some maxT, some minT =>
        [("R8", if maxT / r8_divisor minT < 2 then "Yes"
                else if maxT / r8_divisor minT > 3 then "No" else "Needs Review")]
      | _, _ => [])
  else if bbox.feature_type = "corner" then
    match measurements.lookup "acute_angles" with
    | some acute_count =>
      let min_angle := (measurements.lookup "min_angle").getD 90
      if acute_count = 0 ∧ min_angle > 45 then [("R3", "Yes"), ("R7", "Yes")]
      else if acute_count > 2 ∨ min_angle < 30 then [("R3", "No"), ("R7", "No")]
      else [("R3", "Needs Review"), ("R7", "Needs Review")]
    | none => []
  else if bbox.feature_type = "junction" then
    match measurements.lookup "unique_sections" with
    | some sections =>
      [("R4", if sections ≤ 2 then "Yes"
              else if sections > 3 then "No" else "Needs Review")]
    | none => []
  else if bbox.feature_type = "rib" then
    match bbox.properties.lookup "spacing" with
    | some spacing =>
      [("R9", if 15 < spacing ∧ spacing < 50 then "Yes"
              else if spacing < 10 ∨ spacing > 80 then "No" else "Needs Review")]
    | none => []
  else if bbox.feature_type = "boss" then
    match bbox.properties.lookup "size" with
    | some size =>
      [("R10", if size < 30 then "Yes"
               else if size > 60 then "No" else "Needs Review")]
    | none => []
  else []

/-- Abstract content of one successfully decoded page: image dimensions and
the outputs of the external OpenCV primitives on that page, including the
per-region-of-interest contour and line oracles used by the measurement
analyzers. -/
structure PageData where
  imgH : Int
  imgW : Int
  wallLines : List Line
  cornerPts : List CornerPt
  junctionContours : List Contour
  ribLines : List Line
  bossKps : List KeyPoint
  roiContours : BoundingBox → List Contour
  roiLines : BoundingBox → List Line

/-- preprocess_image (cv.py lines 60-83): raises ValueError when the image
cannot be decoded (cv2.imread returned None), otherwise a pure
image-to-image transform whose result is abstracted by the page data. -/
def preprocess_image (page : Option PageData) : Except String PageData :=
  match page with
  | none => Except.error "Could not load image"
  | some d => Except.ok d

/-- The measurement dispatch of analyze_casting_image (cv.py lines
520-528). -/
noncomputable def featureMeasurements (d : PageData) (bbox : BoundingBox) :
    List (String × Real) :=
  if bbox.feature_type = "wall" then analyze_wall_thickness bbox (d.roiContours bbox)
  else if bbox.feature_type = "corner" then analyze_corner_angles (d.roiLines bbox)
  else if bbox.feature_type = "junction" then analyze_junction_complexity (d.roiLines bbox)
  else []

/-- analyze_casting_image (cv.py lines 503-541): preprocess (which may
raise, and whose exception then propagates), run the five detectors,
measure and evaluate each feature. -/
noncomputable def analyze_casting_image (page : Option PageData) :
    Except String (List FeatureAnalysis) :=
  match preprocess_image page with
  | Except.error e => Except.error e
  | Except.ok d =>
    let all_bboxes :=
      detect_walls d.imgH d.imgW d.wallLines 100 ++
      detect_corners d.imgH d.imgW d.cornerPts ++
      detect_junctions d.junctionContours ++
      detect_ribs d.ribLines ++
      detect_bosses d.bossKps
    Except.ok (all_bboxes.map (fun bbox =>
      let ms := featureMeasurements d bbox
      let a : FeatureAnalysis := ⟨bbox, [], ms, []⟩
      ⟨bbox, check_rule_compliance a, ms, []⟩))

/-- One entry of the per-page dictionary built by analyze_pdf_document. -/
structure PageResult where
  analyses : List FeatureAnalysis
  feature_count : Nat

/-- The document-level result of analyze_pdf_document (cv.py lines
563-568). -/
structure DocumentResult where
  total_pages : Nat
  total_features : Nat
  pages : List PageResult

/-- The page loop of analyze_pdf_document (cv.py lines 553-561): pages are
processed in order and any exception raised for one page propagates,
aborting the remaining pages. -/
noncomputable def analyzePages : List (Option PageData) → Except String (List PageResult)
  | [] => Except.ok []
  | p :: rest =>
    match analyze_casting_image p with
    | Except.error e => Except.error e
    | Except.ok r =>
      match analyzePages rest with
      | Except.error e => Except.error e
      | Except.ok rs => Except.ok (⟨r, r.length⟩ :: rs)

/-- analyze_pdf_document (cv.py lines 543-568). -/
noncomputable def analyze_pdf_document (pages : List (Option PageData)) :
    Except String DocumentResult :=
  match analyzePages pages with
  | Except.error e => Except.error e
  | Except.ok rs =>
    Except.ok ⟨pages.length, (rs.map (fun pr => pr.feature_count)).sum, rs⟩

/-! ### Helper lemmas -/

theorem length_insertAscBy {α : Type} (key : α → Rat) (a : α) (l : List α) :
    (insertAscBy key a l).length = l.length + 1 := by
  induction l with
  | nil => rfl
  | cons b t ih =>
    simp only [insertAscBy]
    split
    · simp
    · simp [ih]

theorem length_sortAscBy {α : Type} (key : α → Rat) (l : List α) :
    (sortAscBy key l).length = l.length := by
  induction l with
  | nil => rfl
  | cons a t ih => simp [sortAscBy, length_insertAscBy, ih]

theorem length_insertDescBy {α : Type} (key : α → Rat) (a : α) (l : List α) :
    (insertDescBy key a l).length = l.length + 1 := by
  induction l with
  | nil => rfl
  | cons b t ih =>
    simp only [insertDescBy]
    split
    · simp
    · simp [ih]

theorem length_sortDescBy {α : Type} (key : α → Rat) (l : List α) :
    (sortDescBy key l).length = l.length := by
  induction l with
  | nil => rfl
  | cons a t ih => simp [sortDescBy, length_insertDescBy, ih]

theorem arctan_nonneg_of_nonneg {x : Real} (h : 0 ≤ x) : 0 ≤ Real.arctan x := by
  have := Real.arctan_strictMono.monotone h
  rwa [Real.arctan_zero] at this

theorem arctan_nonpos_of_nonpos {x : Real} (h : x ≤ 0) : Real.arctan x ≤ 0 := by
  have := Real.arctan_strictMono.monotone h
  rwa [Real.arctan_zero] at this

theorem arctan_pos_of_pos {x : Real} (h : 0 < x) : 0 < Real.arctan x := by
  have := Real.arctan_strictMono h
  rwa [Real.arctan_zero] at this

/-- The range of the arctan2 model: (-pi, pi], matching numpy. -/
theorem atan2_bounds (y x : Real) : -Real.pi < atan2 y x ∧ atan2 y x ≤ Real.pi := by
  have hpi := Real.pi_pos
  unfold atan2
  split_ifs with h1 h2 h3 h4 h5
  · have hl := Real.neg_pi_div_two_lt_arctan (y / x)
    have hu := Real.arctan_lt_pi_div_two (y / x)
    constructor <;> linarith
  · have hyx : y / x ≤ 0 := div_nonpos_of_nonneg_of_nonpos h3 h2.le
    have hl := Real.neg_pi_div_two_lt_arctan (y / x)
    have hu := arctan_nonpos_of_nonpos hyx
    constructor <;> linarith
  · have hy : y < 0 := not_le.mp h3
    have hyx : 0 < y / x := div_pos_of_neg_of_neg hy h2
    have hl := arctan_pos_of_pos hyx
    have hu := Real.arctan_lt_pi_div_two (y / x)
    constructor <;> linarith
  · constructor <;> linarith
  · constructor <;> linarith
  · constructor <;> linarith

/-! ### C8: detector output caps -/

/-- C8: per page, the detectors return at most 15 walls, 10 corners, 10
junctions, 5 ribs and 5 bosses, for every possible set of detector
inputs. -/
theorem c8_detector_caps (imgH imgW ml : Int) (wallLs ribLs : List Line)
    (pts : List CornerPt) (cs : List Contour) (kps : List KeyPoint) :
    (detect_walls imgH imgW wallLs ml).length ≤ 15 ∧
    (detect_corners imgH imgW pts).length ≤ 10 ∧
    (detect_junctions cs).length ≤ 10 ∧
    (detect_ribs ribLs).length ≤ 5 ∧
    (detect_bosses kps).length ≤ 5 := by
  refine ⟨?_, ?_, ?_, ?_, ?_⟩
  · simp only [detect_walls, List.length_map, List.length_take]
    exact min_le_left _ _
  · simp only [detect_corners, List.length_map]
    split_ifs with h
    · simp only [List.length_drop, length_sortAscBy]
      omega
    · omega
  · simp only [detect_junctions, List.length_map]
    have h1 := List.length_filter_le (fun c => decide (c.area > 200))
      ((sortDescBy (fun c => c.area) cs).take 10)
    have h2 : ((sortDescBy (fun c => c.area) cs).take 10).length ≤ 10 := by
      simp [List.length_take]
    omega
  · simp only [detect_ribs, List.length_take]
    exact min_le_left _ _
  · simp only [detect_bosses, List.length_map, List.length_take]
    exact min_le_left _ _

/-! ### C9: the R8 divisor is structurally nonzero -/

/-- C9: the divisor of the R8 transition ratio is max(min_thickness, 1),
hence at least 1 and never zero, for every measured value including zero;
the concrete conjunct runs the evaluator at min_thickness = 0 and shows it
returns a verdict normally (no exception path exists). -/
theorem c9_r8_divisor_structural (m : Real) :
    r8_divisor m = max m 1 ∧ 1 ≤ r8_divisor m ∧ r8_divisor m ≠ 0 ∧
    check_rule_compliance
        ⟨⟨0, 0, 1, 1, "wall", 0.8, []⟩, [],
         [("max_thickness", 5), ("min_thickness", 0)], []⟩ =
      [("R8", "No")] := by
  refine ⟨rfl, le_max_right m 1, ?_, ?_⟩
  · have : (1 : Real) ≤ max m 1 := le_max_right m 1
    intro h
    rw [r8_divisor] at h
    rw [h] at this
    linarith
  · have hd : r8_divisor 0 = 1 := by
      rw [r8_divisor]
      exact max_eq_right zero_le_one
    have hv : ([("max_thickness", (5 : Real)), ("min_thickness", 0)].lookup
        "thickness_variation") = none := rfl
    have hmx : ([("max_thickness", (5 : Real)), ("min_thickness", 0)].lookup
        "max_thickness") = some 5 := rfl
    have hmn : ([("max_thickness", (5 : Real)), ("min_thickness", 0)].lookup
        "min_thickness") = some 0 := rfl
    simp only [check_rule_compliance, hv, hmx, hmn, hd]
    norm_num

/-! ### C7: verdict totality -/

/-- The applicability table of spec section 4.8: which rule identifiers a
feature of each type may contribute. -/
def specApplicableRules (ft : String) : List String :=
  if ft = "wall" then ["R5", "R8"]
  else if ft = "corner" then ["R3", "R7"]
  else if ft = "junction" then ["R4"]
  else if ft = "rib" then ["R9"]
  else if ft = "boss" then ["R10"]
  else []

/-- C7: every verdict list produced by the compliance evaluator contains
only rule identifiers applicable to the feature type, only values Yes, No
or Needs Review, and the R3 and R7 entries always agree (both absent for
non-corners, both present and equal for corners). -/
theorem c7_verdict_totality (a : FeatureAnalysis) :
    ((check_rule_compliance a).Forall fun rv =>
        rv.1 ∈ specApplicableRules a.bbox.feature_type ∧
        rv.2 ∈ (["Yes", "No", "Needs Review"] : List String)) ∧
    (check_rule_compliance a).lookup "R3" = (check_rule_compliance a).lookup "R7" := by
  unfold check_rule_compliance
  by_cases hw : a.bbox.feature_type = "wall"
  · rw [if_pos hw, hw]
    have hsp : specApplicableRules "wall" = ["R5", "R8"] := rfl
    rcases h1 : a.measurements.lookup "thickness_variation" with _ | v <;>
      rcases h2 : a.measurements.lookup "max_thickness" with _ | mx <;>
        rcases h3 : a.measurements.lookup "min_thickness" with _ | mn <;>
          rw [hsp] <;> dsimp only <;>
          first
          | (split_ifs <;> simp [List.Forall, List.lookup])
          | simp [List.Forall, List.lookup]
  · rw [if_neg hw]
    by_cases hc : a.bbox.feature_type = "corner"
    · rw [if_pos hc, hc]
      rcases h1 : a.measurements.lookup "acute_angles" with _ | ac
      · simp [List.Forall, List.lookup]
      · have hsp : specApplicableRules "corner" = ["R3", "R7"] := rfl
        rw [hsp]
        dsimp only
        split_ifs <;> simp [List.Forall, List.lookup]
    · rw [if_neg hc]
      by_cases hj : a.bbox.feature_type = "junction"
      · rw [if_pos hj, hj]
        rcases h1 : a.measurements.lookup "unique_sections" with _ | s
        · simp [List.Forall, List.lookup]
        · have hsp : specApplicableRules "junction" = ["R4"] := rfl
          rw [hsp]
          dsimp only
          split_ifs <;> simp [List.Forall, List.lookup]
      · rw [if_neg hj]
        by_cases hr : a.bbox.feature_type = "rib"
        · rw [if_pos hr, hr]
          rcases h1 : a.bbox.properties.lookup "spacing" with _ | sp
          · simp [List.Forall, List.lookup]
          · have hsp : specApplicableRules "rib" = ["R9"] := rfl
            rw [hsp]
            dsimp only
            split_ifs <;> simp [List.Forall, List.lookup]
        · rw [if_neg hr]
          by_cases hb : a.bbox.feature_type = "boss"
          · rw [if_pos hb, hb]
            rcases h1 : a.bbox.properties.lookup "size" with _ | sz
            · simp [List.Forall, List.lookup]
            · have hsp : specApplicableRules "boss" = ["R10"] := rfl
              rw [hsp]
              dsimp only
              split_ifs <;> simp [List.Forall, List.lookup]
          · rw [if_neg hb]
            simp [List.Forall, List.lookup]

/-! ### C6: corner measurement defaults and their verdicts -/

/-- C6: when fewer than two lines are detected in a corner region, the
measurement returns the neutral defaults min_angle = avg_angle = 90 and
acute_angles = 0, and the compliance evaluator then assigns R3 = R7 =
Yes. -/
theorem c6_corner_defaults (lines : List Line) (bb : BoundingBox)
    (h1 : lines.length < 2) (h2 : bb.feature_type = "corner") :
    analyze_corner_angles lines =
      [("min_angle", 90), ("avg_angle", 90), ("acute_angles", 0)] ∧
    check_rule_compliance ⟨bb, [], analyze_corner_angles lines, []⟩ =
      [("R3", "Yes"), ("R7", "Yes")] := by
  have hca : cornerAngles lines = [] := by
    unfold cornerAngles
    rw [if_neg (by omega : ¬ 2 ≤ lines.length)]
  have hd : analyze_corner_angles lines =
      [("min_angle", 90), ("avg_angle", 90), ("acute_angles", 0)] := by
    simp [analyze_corner_angles, hca]
  refine ⟨hd, ?_⟩
  simp only [check_rule_compliance, hd]
  simp [h2, List.lookup]
  norm_num

/-- Witness for C6 at the empty line list and a concrete corner box. -/
theorem c6_witness :
    (([] : List Line).length < 2) ∧
    (⟨0, 0, 50, 50, "corner", 0.7, []⟩ : BoundingBox).feature_type = "corner" ∧
    (analyze_corner_angles [] =
        [("min_angle", 90), ("avg_angle", 90), ("acute_angles", 0)] ∧
     check_rule_compliance
         ⟨⟨0, 0, 50, 50, "corner", 0.7, []⟩, [], analyze_corner_angles [], []⟩ =
       [("R3", "Yes"), ("R7", "Yes")]) :=
  ⟨by decide, rfl, c6_corner_defaults [] ⟨0, 0, 50, 50, "corner", 0.7, []⟩ (by decide) rfl⟩

/-! ### C4: wall regions with no contours -/

/-- C4 (amended): when thickness measurement finds no usable contours, all
four metrics report zero and this is not an error; but the downstream
verdicts for such a wall are R5 = Yes and R8 = Yes (0 standard deviation is
below the 2.0 threshold and the ratio 0/1 is below 2.0), not Needs
Review. -/
theorem c4_no_contours_zero_metrics (bb : BoundingBox) (cs : List Contour)
    (h1 : thicknessSamples cs = []) (h2 : bb.feature_type = "wall") :
    analyze_wall_thickness bb cs =
      [("avg_thickness", 0), ("min_thickness", 0),
       ("max_thickness", 0), ("thickness_variation", 0)] ∧
    check_rule_compliance ⟨bb, [], analyze_wall_thickness bb cs, []⟩ =
      [("R5", "Yes"), ("R8", "Yes")] := by
  have hd : analyze_wall_thickness bb cs =
      [("avg_thickness", 0), ("min_thickness", 0),
       ("max_thickness", 0), ("thickness_variation", 0)] := by
    simp [analyze_wall_thickness, h1]
  refine ⟨hd, ?_⟩
  simp only [check_rule_compliance, hd]
  simp [h2, List.lookup, r8_divisor]

/-- Witness for C4 at the empty contour list and a concrete wall box. -/
theorem c4_witness :
    thicknessSamples [] = [] ∧
    (⟨0, 0, 100, 100, "wall", 0.8, []⟩ : BoundingBox).feature_type = "wall" ∧
    (analyze_wall_thickness ⟨0, 0, 100, 100, "wall", 0.8, []⟩ [] =
        [("avg_thickness", 0), ("min_thickness", 0),
         ("max_thickness", 0), ("thickness_variation", 0)] ∧
     check_rule_compliance
         ⟨⟨0, 0, 100, 100, "wall", 0.8, []⟩, [],
          analyze_wall_thickness ⟨0, 0, 100, 100, "wall", 0.8, []⟩ [], []⟩ =
       [("R5", "Yes"), ("R8", "Yes")]) :=
  ⟨rfl, rfl,
   c4_no_contours_zero_metrics ⟨0, 0, 100, 100, "wall", 0.8, []⟩ [] rfl rfl⟩

/-- C4 counterexample to the claim as stated: for a wall region with no
contours the verdicts are R5 = Yes and R8 = Yes; neither rule is assigned
Needs Review, contradicting the claimed downstream verdict. -/
theorem c4_counterexample :
    analyze_wall_thickness ⟨10, 10, 60, 60, "wall", 0.8, []⟩ [] =
      [("avg_thickness", 0), ("min_thickness", 0),
       ("max_thickness", 0), ("thickness_variation", 0)] ∧
    check_rule_compliance
        ⟨⟨10, 10, 60, 60, "wall", 0.8, []⟩, [],
         analyze_wall_thickness ⟨10, 10, 60, 60, "wall", 0.8, []⟩ [], []⟩ =
      [("R5", "Yes"), ("R8", "Yes")] ∧
    ("R5", "Needs Review") ∉
      check_rule_compliance
        ⟨⟨10, 10, 60, 60, "wall", 0.8, []⟩, [],
         analyze_wall_thickness ⟨10, 10, 60, 60, "wall", 0.8, []⟩ [], []⟩ ∧
    ("R8", "Needs Review") ∉
      check_rule_compliance
        ⟨⟨10, 10, 60, 60, "wall", 0.8, []⟩, [],
         analyze_wall_thickness ⟨10, 10, 60, 60, "wall", 0.8, []⟩ [], []⟩ := by
  have hd : analyze_wall_thickness ⟨10, 10, 60, 60, "wall", 0.8, []⟩ [] =
      [("avg_thickness", 0), ("min_thickness", 0),
       ("max_thickness", 0), ("thickness_variation", 0)] := by
    simp [analyze_wall_thickness, thicknessSamples]
  have hc : check_rule_compliance
      ⟨⟨10, 10, 60, 60, "wall", 0.8, []⟩, [],
       analyze_wall_thickness ⟨10, 10, 60, 60, "wall", 0.8, []⟩ [], []⟩ =
      [("R5", "Yes"), ("R8", "Yes")] := by
    simp only [check_rule_compliance, hd]
    simp [List.lookup, r8_divisor]
  refine ⟨hd, hc, ?_, ?_⟩ <;> rw [hc] <;> simp

/-! ### C5: corner angle-difference normalization -/

/-- C5 (amended): each value appended to the corner angle list is at most
90 and above -180; it lies in [0, 90] exactly when the absolute orientation
difference of the pair is at most pi (180 degrees).  The single reflection
step of the code does not map differences above 180 degrees into [0, 90]:
those produce negative values. -/
theorem c5_angle_diff_normalized (l1 l2 : Line) :
    angleDiffDeg l1 l2 ≤ 90 ∧ -180 < angleDiffDeg l1 l2 ∧
    (|lineAngleRad l1 - lineAngleRad l2| ≤ Real.pi → 0 ≤ angleDiffDeg l1 l2) := by
  have hpi := Real.pi_pos
  have h1 : -Real.pi < lineAngleRad l1 ∧ lineAngleRad l1 ≤ Real.pi := atan2_bounds _ _
  have h2 : -Real.pi < lineAngleRad l2 ∧ lineAngleRad l2 ≤ Real.pi := atan2_bounds _ _
  have habs : |lineAngleRad l1 - lineAngleRad l2| < 2 * Real.pi := by
    rw [abs_lt]
    constructor <;> linarith [h1.1, h1.2, h2.1, h2.2]
  have hne : 0 ≤ |lineAngleRad l1 - lineAngleRad l2| := abs_nonneg _
  unfold angleDiffDeg
  dsimp only
  set d := |lineAngleRad l1 - lineAngleRad l2| * 180 / Real.pi with hdd
  have hd0 : 0 ≤ d := by
    rw [hdd]
    positivity
  have hdlt : d < 360 := by
    rw [hdd, div_lt_iff₀ hpi]
    nlinarith [habs]
  split_ifs with hgt
  · refine ⟨by linarith, by linarith, fun hle => ?_⟩
    have hd180 : d ≤ 180 := by
      rw [hdd, div_le_iff₀ hpi]
      nlinarith [hle]
    linarith
  · exact ⟨by linarith, by linarith, fun _ => hd0⟩

/-- Witness for C5 at a pair of identical horizontal segments, whose
orientation difference is zero. -/
theorem c5_witness :
    (|lineAngleRad ⟨0, 0, 1, 0⟩ - lineAngleRad ⟨0, 0, 1, 0⟩| ≤ Real.pi) ∧
    0 ≤ angleDiffDeg ⟨0, 0, 1, 0⟩ ⟨0, 0, 1, 0⟩ ∧
    angleDiffDeg ⟨0, 0, 1, 0⟩ ⟨0, 0, 1, 0⟩ ≤ 90 := by
  have h : |lineAngleRad ⟨0, 0, 1, 0⟩ - lineAngleRad ⟨0, 0, 1, 0⟩| ≤ Real.pi := by
    rw [sub_self, abs_zero]
    exact Real.pi_pos.le
  exact ⟨h, (c5_angle_diff_normalized ⟨0, 0, 1, 0⟩ ⟨0, 0, 1, 0⟩).2.2 h,
         (c5_angle_diff_normalized ⟨0, 0, 1, 0⟩ ⟨0, 0, 1, 0⟩).1⟩

/-- C5 counterexample to the claim as stated: for the segment from (1,0) to
(0,0) (orientation pi) and the segment from (1,1) to (0,0) (orientation
-3pi/4), the absolute difference is 315 degrees and the single reflection
yields -135, which is appended to the angle list and is not in [0, 90]. -/
theorem c5_counterexample :
    cornerAngles [⟨1, 0, 0, 0⟩, ⟨1, 1, 0, 0⟩] = [-135] ∧ ¬ (0 ≤ (-135 : Real)) := by
  have hpi := Real.pi_pos
  have ha1 : lineAngleRad ⟨1, 0, 0, 0⟩ = Real.pi := by
    unfold lineAngleRad atan2
    norm_num [Real.arctan_zero]
  have ha2 : lineAngleRad ⟨1, 1, 0, 0⟩ = -(3 * Real.pi / 4) := by
    unfold lineAngleRad atan2
    norm_num [Real.arctan_one]
    ring
  have hdiff : |lineAngleRad ⟨1, 0, 0, 0⟩ - lineAngleRad ⟨1, 1, 0, 0⟩| =
      7 * Real.pi / 4 := by
    rw [ha1, ha2]
    have he : Real.pi - -(3 * Real.pi / 4) = 7 * Real.pi / 4 := by ring
    rw [he, abs_of_pos (by positivity)]
  have hd : |lineAngleRad ⟨1, 0, 0, 0⟩ - lineAngleRad ⟨1, 1, 0, 0⟩| * 180 / Real.pi =
      315 := by
    rw [hdiff]
    field_simp
    ring
  have hv : angleDiffDeg ⟨1, 0, 0, 0⟩ ⟨1, 1, 0, 0⟩ = -135 := by
    unfold angleDiffDeg
    dsimp only
    rw [hd, if_pos (by norm_num : (315 : Real) > 90)]
    norm_num
  constructor
  · unfold cornerAngles
    rw [if_pos (by simp : 2 ≤ ([⟨1, 0, 0, 0⟩, ⟨1, 1, 0, 0⟩] : List Line).length)]
    simp [pairDiffs, hv]
  · norm_num

/-! ### C10: rib angles are radians, wall angles are degrees -/

theorem findRibPartner_mem (l1 : Line) :
    ∀ (L : List (Nat × Line)) (P : List Nat) (j : Nat) (l2 : Line),
      findRibPartner l1 L P = some (j, l2) → (j, l2) ∈ L := by
  intro L
  induction L with
  | nil =>
    intro P j l2 h
    simp [findRibPartner] at h
  | cons a rest ih =>
    intro P j l2 h
    obtain ⟨j', l2'⟩ := a
    unfold findRibPartner at h
    split_ifs at h with hp ha hd
    · exact List.mem_cons_of_mem _ (ih P j l2 h)
    · rw [Option.some.injEq] at h
      rw [Prod.mk.injEq] at h
      rw [h.1, h.2]
      exact List.mem_cons_self _ _
    · exact List.mem_cons_of_mem _ (ih P j l2 h)
    · exact List.mem_cons_of_mem _ (ih P j l2 h)

theorem ribLoop_shape :
    ∀ (L : List (Nat × Line)) (P : List Nat),
      (ribLoop L P).Forall (fun b => ∃ l1 l2 : Line,
        (∃ i, (i, l1) ∈ L) ∧ (∃ j, (j, l2) ∈ L) ∧ b = mkRibBox l1 l2) := by
  intro L
  induction L with
  | nil =>
    intro P
    simp [ribLoop, List.Forall]
  | cons a rest ih =>
    intro P
    obtain ⟨i, l1⟩ := a
    unfold ribLoop
    split_ifs with hp
    · exact (ih P).imp (fun b ⟨u, v, ⟨iu, hu⟩, ⟨jv, hv⟩, hb⟩ =>
        ⟨u, v, ⟨iu, List.mem_cons_of_mem _ hu⟩, ⟨jv, List.mem_cons_of_mem _ hv⟩, hb⟩)
    · rcases hf : findRibPartner l1 rest P with _ | jl
      · exact (ih P).imp (fun b ⟨u, v, ⟨iu, hu⟩, ⟨jv, hv⟩, hb⟩ =>
          ⟨u, v, ⟨iu, List.mem_cons_of_mem _ hu⟩, ⟨jv, List.mem_cons_of_mem _ hv⟩, hb⟩)
      · obtain ⟨j, l2⟩ := jl
        rw [List.forall_cons]
        constructor
        · exact ⟨l1, l2, ⟨i, List.mem_cons_self _ _⟩,
            ⟨j, List.mem_cons_of_mem _ (findRibPartner_mem l1 rest P j l2 hf)⟩, rfl⟩
        · exact (ih _).imp (fun b ⟨u, v, ⟨iu, hu⟩, ⟨jv, hv⟩, hb⟩ =>
            ⟨u, v, ⟨iu, List.mem_cons_of_mem _ hu⟩, ⟨jv, List.mem_cons_of_mem _ hv⟩, hb⟩)

theorem mkRibBox_angle_lookup (l1 l2 : Line) :
    (mkRibBox l1 l2).properties.lookup "angle" = some (lineAngleRad l1) := by
  simp [mkRibBox, List.lookup]

theorem mem_of_mem_enum {α : Type} {x : Nat × α} {l : List α} (h : x ∈ l.enum) :
    x.2 ∈ l := by
  have := List.mem_map_of_mem Prod.snd h
  rwa [List.enum_map_snd] at this

/-- C10: every rib feature's angle property is the raw arctan2 orientation
of the first segment of its pair, a radian value in (-pi, pi] (never
converted to degrees), whereas every wall feature's angle property is the
arctan2 orientation multiplied by 180/pi, i.e. degrees. -/
theorem c10_angle_units (ribLs wallLs : List Line) (imgH imgW ml : Int) :
    ((detect_ribs ribLs).Forall fun b => ∃ l1 l2 : Line,
        l1 ∈ ribLs ∧ l2 ∈ ribLs ∧ b = mkRibBox l1 l2 ∧
        b.properties.lookup "angle" = some (lineAngleRad l1) ∧
        -Real.pi < lineAngleRad l1 ∧ lineAngleRad l1 ≤ Real.pi) ∧
    ((detect_walls imgH imgW wallLs ml).Forall fun b => ∃ l : Line,
        b = mkWallBox l ∧
        b.properties.lookup "angle" = some (lineAngleRad l * 180 / Real.pi)) := by
  constructor
  · rw [List.forall_iff_forall_mem]
    intro b hb
    have hb' : b ∈ ribLoop (ribLs.take 30).enum [] :=
      (List.take_sublist 5 _).subset hb
    have hshape := ribLoop_shape (ribLs.take 30).enum []
    rw [List.forall_iff_forall_mem] at hshape
    obtain ⟨l1, l2, ⟨i, hi⟩, ⟨j, hj⟩, hbeq⟩ := hshape b hb'
    have hl1 : l1 ∈ ribLs := (List.take_sublist 30 _).subset (mem_of_mem_enum hi)
    have hl2 : l2 ∈ ribLs := (List.take_sublist 30 _).subset (mem_of_mem_enum hj)
    refine ⟨l1, l2, hl1, hl2, hbeq, ?_, (atan2_bounds _ _).1, (atan2_bounds _ _).2⟩
    rw [hbeq]
    exact mkRibBox_angle_lookup l1 l2
  · rw [List.forall_iff_forall_mem]
    intro b hb
    simp only [detect_walls, List.mem_map] at hb
    obtain ⟨l, _, hbeq⟩ := hb
    refine ⟨l, hbeq.symm, ?_⟩
    rw [← hbeq]
    simp [mkWallBox, List.lookup, wallAngleDeg]

/-! ### C2: region bounds -/

theorem mem_insertAscBy {α : Type} (key : α → Rat) (b a : α) (l : List α) :
    a ∈ insertAscBy key b l ↔ a = b ∨ a ∈ l := by
  induction l with
  | nil => simp [insertAscBy]
  | cons c t ih =>
    simp only [insertAscBy]
    split_ifs
    · simp [List.mem_cons]
    · simp only [List.mem_cons, ih]
      tauto

theorem mem_sortAscBy {α : Type} (key : α → Rat) (a : α) (l : List α) :
    a ∈ sortAscBy key l ↔ a ∈ l := by
  induction l with
  | nil => simp [sortAscBy]
  | cons c t ih => simp [sortAscBy, mem_insertAscBy, ih]

open Classical in
theorem wallSurvivors_keep {imgH imgW ml : Int} {lines : List Line} {l : Line}
    (h : l ∈ wallSurvivors imgH imgW ml lines) : wallKeep imgH imgW ml l := by
  unfold wallSurvivors at h
  rw [List.mem_filter] at h
  exact of_decide_eq_true h.2

theorem mkWallBox_in_bounds {imgH imgW ml : Int} {l : Line}
    (hk : wallKeep imgH imgW ml l) :
    (mkWallBox l).x + (mkWallBox l).width ≤ imgW ∧
    (mkWallBox l).y + (mkWallBox l).height ≤ imgH := by
  obtain ⟨-, hm⟩ := hk
  push_neg at hm
  obtain ⟨h1, h2, h3, h4, h5, h6, h7, h8⟩ := hm
  simp only [wallMargin] at h1 h2 h3 h4 h5 h6 h7 h8
  simp only [mkWallBox]
  constructor
  · have e : |l.x2 - l.x1| = max l.x1 l.x2 - min l.x1 l.x2 :=
      (max_sub_min_eq_abs l.x1 l.x2).symm
    rw [e]
    have hmin : (50 : Int) ≤ min l.x1 l.x2 := le_min h1 h2
    have hmax : max l.x1 l.x2 ≤ imgW - 50 := max_le h5 h6
    have hclamp : max 0 (min l.x1 l.x2 - 30) = min l.x1 l.x2 - 30 :=
      max_eq_right (by omega)
    rw [hclamp]
    omega
  · have e : |l.y2 - l.y1| = max l.y1 l.y2 - min l.y1 l.y2 :=
      (max_sub_min_eq_abs l.y1 l.y2).symm
    rw [e]
    have hmin : (50 : Int) ≤ min l.y1 l.y2 := le_min h3 h4
    have hmax : max l.y1 l.y2 ≤ imgH - 50 := max_le h7 h8
    have hclamp : max 0 (min l.y1 l.y2 - 30) = min l.y1 l.y2 - 30 :=
      max_eq_right (by omega)
    rw [hclamp]
    omega

theorem mkCornerBox_in_bounds {imgH imgW : Int} {c : CornerPt}
    (hk : cornerKeep imgH imgW c = true) :
    (mkCornerBox c).x + (mkCornerBox c).width ≤ imgW ∧
    (mkCornerBox c).y + (mkCornerBox c).height ≤ imgH := by
  have hk' := of_decide_eq_true hk
  push_neg at hk'
  obtain ⟨h1, h2, h3, h4⟩ := hk'
  simp only [cornerMargin] at h1 h2 h3 h4
  simp only [mkCornerBox]
  constructor
  · have hclamp : max 0 (c.x - 25) = c.x - 25 := max_eq_right (by omega)
    rw [hclamp]
    omega
  · have hclamp : max 0 (c.y - 25) = c.y - 25 := max_eq_right (by omega)
    rw [hclamp]
    omega

/-- C2 (amended): every region produced by any of the five detectors
satisfies the lower bounds 0 ≤ x and 0 ≤ y, and wall and corner regions
(whose detectors filter by a border margin) additionally satisfy the upper
bounds x + width ≤ image_width and y + height ≤ image_height.  The upper
bounds do NOT hold for junction, rib and boss regions, whose padding is
clamped at zero only (see the counterexample). -/
theorem c2_region_bounds (imgH imgW ml : Int) (wallLs ribLs : List Line)
    (pts : List CornerPt) (cs : List Contour) (kps : List KeyPoint) :
    ((detect_walls imgH imgW wallLs ml).Forall fun b => 0 ≤ b.x ∧ 0 ≤ b.y) ∧
    ((detect_corners imgH imgW pts).Forall fun b => 0 ≤ b.x ∧ 0 ≤ b.y) ∧
    ((detect_junctions cs).Forall fun b => 0 ≤ b.x ∧ 0 ≤ b.y) ∧
    ((detect_ribs ribLs).Forall fun b => 0 ≤ b.x ∧ 0 ≤ b.y) ∧
    ((detect_bosses kps).Forall fun b => 0 ≤ b.x ∧ 0 ≤ b.y) ∧
    ((detect_walls imgH imgW wallLs ml).Forall fun b =>
        b.x + b.width ≤ imgW ∧ b.y + b.height ≤ imgH) ∧
    ((detect_corners imgH imgW pts).Forall fun b =>
        b.x + b.width ≤ imgW ∧ b.y + b.height ≤ imgH) := by
  refine ⟨?_, ?_, ?_, ?_, ?_, ?_, ?_⟩
  · rw [List.forall_iff_forall_mem]
    intro b hb
    simp only [detect_walls, List.mem_map] at hb
    obtain ⟨l, -, rfl⟩ := hb
    exact ⟨le_max_left 0 _, le_max_left 0 _⟩
  · rw [List.forall_iff_forall_mem]
    intro b hb
    simp only [detect_corners, List.mem_map] at hb
    obtain ⟨c, -, rfl⟩ := hb
    exact ⟨le_max_left 0 _, le_max_left 0 _⟩
  · rw [List.forall_iff_forall_mem]
    intro b hb
    simp only [detect_junctions, List.mem_map] at hb
    obtain ⟨c, -, rfl⟩ := hb
    exact ⟨le_max_left 0 _, le_max_left 0 _⟩
  · rw [List.forall_iff_forall_mem]
    intro b hb
    have hb' : b ∈ ribLoop (ribLs.take 30).enum [] :=
      (List.take_sublist 5 _).subset hb
    have hshape := ribLoop_shape (ribLs.take 30).enum []
    rw [List.forall_iff_forall_mem] at hshape
    obtain ⟨l1, l2, -, -, rfl⟩ := hshape b hb'
    exact ⟨le_max_left 0 _, le_max_left 0 _⟩
  · rw [List.forall_iff_forall_mem]
    intro b hb
    simp only [detect_bosses, List.mem_map] at hb
    obtain ⟨kp, -, rfl⟩ := hb
    exact ⟨le_max_left 0 _, le_max_left 0 _⟩
  · rw [List.forall_iff_forall_mem]
    intro b hb
    simp only [detect_walls, List.mem_map] at hb
    obtain ⟨l, hl, rfl⟩ := hb
    exact mkWallBox_in_bounds (wallSurvivors_keep ((List.take_sublist 15 _).subset hl))
  · rw [List.forall_iff_forall_mem]
    intro b hb
    simp only [detect_corners, List.mem_map] at hb
    obtain ⟨c, hc, rfl⟩ := hb
    have hcf : c ∈ pts.filter (cornerKeep imgH imgW) := by
      by_cases h10 : 10 < (pts.filter (cornerKeep imgH imgW)).length
      · rw [if_pos h10] at hc
        have := List.drop_subset _ _ hc
        rwa [mem_sortAscBy] at this
      · rwa [if_neg h10] at hc
    have hk : cornerKeep imgH imgW c = true := (List.mem_filter.mp hcf).2
    exact mkCornerBox_in_bounds hk

/-- The contour of the C2 counterexample: bounding rectangle (150, 50, 40,
40) and area 1600, entirely inside a 200 by 200 image. -/
def c2_contour : Contour := ⟨20, 150, 50, 40, 40, 1600⟩

/-- C2 counterexample to the claim as stated: a junction contour lying
inside a 200 by 200 image produces the region (120, 20, 100, 100), whose
right edge 120 + 100 = 220 exceeds the image width 200. -/
theorem c2_counterexample :
    0 ≤ c2_contour.x ∧ 0 ≤ c2_contour.y ∧
    c2_contour.x + c2_contour.w ≤ 200 ∧ c2_contour.y + c2_contour.h ≤ 200 ∧
    (detect_junctions [c2_contour]).map (fun b => (b.x, b.y, b.width, b.height)) =
      [(120, 20, 100, 100)] ∧
    ¬ ((120 : Int) + 100 ≤ 200) := by
  refine ⟨by norm_num [c2_contour], by norm_num [c2_contour],
          by norm_num [c2_contour], by norm_num [c2_contour], ?_, by norm_num⟩
  norm_num [detect_junctions, sortDescBy, insertDescBy, c2_contour, mkJunctionBox]

/-! ### C3: wall segment retention policy -/

theorem segLength_horiz (a y b : Int) (h : a ≤ b) :
    segLength ⟨a, y, b, y⟩ = ((b - a : Int) : Real) := by
  unfold segLength
  dsimp only
  rw [sub_self]
  norm_num
  rw [Real.sqrt_sq]
  exact_mod_cast sub_nonneg.mpr h

theorem wallKeep_demo (a y b : Int) (h1 : 50 ≤ a) (h2 : a ≤ 950) (h3 : 50 ≤ b)
    (h4 : b ≤ 950) (h5 : 50 ≤ y) (h6 : y ≤ 950) (h7 : 100 ≤ b - a) :
    wallKeep 1000 1000 100 ⟨a, y, b, y⟩ := by
  unfold wallKeep
  constructor
  · rw [segLength_horiz a y b (by omega)]
    push_neg
    exact_mod_cast h7
  · push_neg
    simp only [wallMargin]
    omega

/-- The k-th short demo segment: horizontal, from (100, 100+10k) to
(250, 100+10k), length 150. -/
def demoWallLine (k : Int) : Line := ⟨100, 100 + 10 * k, 250, 100 + 10 * k⟩

/-- The long demo segment: horizontal, from (100, 260) to (900, 260),
length 800. -/
def longWallLine : Line := ⟨100, 260, 900, 260⟩

/-- Sixteen segments, all surviving the wall filters of a 1000 by 1000
image; the longest one is listed last. -/
def demoWallLines : List Line :=
  [demoWallLine 0, demoWallLine 1, demoWallLine 2, demoWallLine 3, demoWallLine 4,
   demoWallLine 5, demoWallLine 6, demoWallLine 7, demoWallLine 8, demoWallLine 9,
   demoWallLine 10, demoWallLine 11, demoWallLine 12, demoWallLine 13, demoWallLine 14,
   longWallLine]

open Classical in
/-- C3 (amended): the wall detector retains the first 15 surviving
segments in detector output order (a plain truncation of the filtered
list); when more than 15 survive, exactly 15 are retained, but they are
not selected by length and no tie-breaking order is applied. -/
theorem c3_wall_cap_first15 (imgH imgW ml : Int) (lines : List Line) :
    detect_walls imgH imgW lines ml =
      ((wallSurvivors imgH imgW ml lines).take 15).map mkWallBox ∧
    (detect_walls imgH imgW lines ml).length =
      min (wallSurvivors imgH imgW ml lines).length 15 := by
  refine ⟨rfl, ?_⟩
  simp only [detect_walls, List.length_map, List.length_take]
  omega

open Classical in
/-- C3 counterexample to the claim as stated: all 16 demo segments survive
the filters (more than the cap), the last one is strictly the longest (800
versus 150), yet every retained box has width 210 = 150 + 2 * 30 while the
longest segment's box would have width 860 — the 15 longest are NOT
retained, the first 15 are. -/
theorem c3_counterexample :
    wallSurvivors 1000 1000 100 demoWallLines = demoWallLines ∧
    demoWallLines.length = 16 ∧
    segLength longWallLine = 800 ∧
    ((demoWallLines.take 15).Forall fun l => segLength l = 150) ∧
    (mkWallBox longWallLine).width = 860 ∧
    ((detect_walls 1000 1000 demoWallLines 100).Forall fun b => b.width = 210) := by
  have hsurv : wallSurvivors 1000 1000 100 demoWallLines = demoWallLines := by
    unfold wallSurvivors
    rw [List.filter_eq_self]
    intro a ha
    simp only [demoWallLines, List.mem_cons, List.not_mem_nil, or_false] at ha
    rcases ha with rfl | rfl | rfl | rfl | rfl | rfl | rfl | rfl | rfl | rfl | rfl |
      rfl | rfl | rfl | rfl | rfl <;>
      exact decide_eq_true (wallKeep_demo _ _ _ (by norm_num) (by norm_num)
        (by norm_num) (by norm_num) (by norm_num) (by norm_num) (by norm_num))
  have htake : demoWallLines.take 15 =
      [demoWallLine 0, demoWallLine 1, demoWallLine 2, demoWallLine 3, demoWallLine 4,
       demoWallLine 5, demoWallLine 6, demoWallLine 7, demoWallLine 8, demoWallLine 9,
       demoWallLine 10, demoWallLine 11, demoWallLine 12, demoWallLine 13,
       demoWallLine 14] := rfl
  have hlen : ∀ k : Int, segLength (demoWallLine k) = 150 := by
    intro k
    unfold demoWallLine
    rw [segLength_horiz 100 (100 + 10 * k) 250 (by norm_num)]
    norm_num
  refine ⟨hsurv, rfl, ?_, ?_, ?_, ?_⟩
  · unfold longWallLine
    rw [segLength_horiz 100 260 900 (by norm_num)]
    norm_num
  · rw [htake]
    rw [List.forall_iff_forall_mem]
    intro l hl
    simp only [List.mem_cons, List.not_mem_nil, or_false] at hl
    rcases hl with rfl | rfl | rfl | rfl | rfl | rfl | rfl | rfl | rfl | rfl | rfl |
      rfl | rfl | rfl | rfl <;> exact hlen _
  · norm_num [mkWallBox, longWallLine]
  · unfold detect_walls
    rw [hsurv, htake]
    rw [List.forall_iff_forall_mem]
    intro b hb
    simp only [List.mem_map, List.mem_cons, List.not_mem_nil, or_false] at hb
    obtain ⟨l, hl, rfl⟩ := hb
    rcases hl with rfl | rfl | rfl | rfl | rfl | rfl | rfl | rfl | rfl | rfl | rfl |
      rfl | rfl | rfl | rfl <;> norm_num [mkWallBox, demoWallLine]

/-! ### C1: an invalid page aborts the whole document analysis -/

theorem analyze_casting_image_some (d : PageData) :
    ∃ r, analyze_casting_image (some d) = Except.ok r :=
  ⟨_, rfl⟩

/-- C1 (amended): an InvalidImage on any page makes the whole document
analysis fail: the per-page exception propagates out of
analyze_pdf_document, so no DocumentResult is produced at all — results
for the other valid pages are discarded rather than reported alongside an
explicit failure marker. -/
theorem c1_invalid_page_aborts (pages : List (Option PageData))
    (h : (none : Option PageData) ∈ pages) :
    analyze_pdf_document pages = Except.error "Could not load image" := by
  have hp : analyzePages pages = Except.error "Could not load image" := by
    induction pages with
    | nil => simp at h
    | cons p rest ih =>
      rcases List.mem_cons.mp h with hp' | hmem
      · rw [← hp']
        rfl
      · rcases p with _ | d
        · rfl
        · obtain ⟨r, hr⟩ := analyze_casting_image_some d
          unfold analyzePages
          rw [hr, ih hmem]

  unfold analyze_pdf_document
  rw [hp]

/-- Witness for C1 at the one-page document whose only page is invalid. -/
theorem c1_witness :
    ((none : Option PageData) ∈ ([none] : List (Option PageData))) ∧
    analyze_pdf_document [none] = Except.error "Could not load image" :=
  ⟨List.mem_singleton.mpr rfl,
   c1_invalid_page_aborts [none] (List.mem_singleton.mpr rfl)⟩

/-- A decodable page on which every external detector primitive returns
nothing. -/
noncomputable def emptyPageData : PageData :=
  ⟨100, 100, [], [], [], [], [], fun _ => [], fun _ => []⟩

/-- C1 counterexample to the claim as stated: for a three-page document
whose middle page fails to decode, analyze_pdf_document returns the
propagated error — not a DocumentResult containing results for the two
valid pages with the failed page marked. -/
theorem c1_counterexample :
    analyze_pdf_document [some emptyPageData, none, some emptyPageData] =
      Except.error "Could not load image" := by
  have h1 : analyze_casting_image (some emptyPageData) = Except.ok [] := by
    unfold analyze_casting_image preprocess_image
    simp [emptyPageData, detect_walls, wallSurvivors, detect_corners,
      detect_junctions, sortDescBy, detect_ribs, ribLoop, detect_bosses]
  have h2 : analyze_casting_image (none : Option PageData) =
      Except.error "Could not load image" := rfl
  unfold analyze_pdf_document
  unfold analyzePages
  rw [h1]
  unfold analyzePages
  rw [h2]

end CastingCV
